import Mathlib

/-!
Verification of the Parquet-to-BigQuery schema generator
(`scripts/parquet_to_bq_schema.py`).

The Python code is shallowly embedded: the pure per-column logic becomes
Lean functions over lists, the generator object's mutable accumulators
become explicit state passing, and the fallible top-level entry point
returns `Except`.  Character classification (`str.upper`, `str.isalpha`,
`str.isalnum`) is modelled at the ASCII level of Lean's `Char` functions,
which agrees with Python on all ASCII inputs.
-/

/-- Models Python's `column_name.upper()` (ASCII case mapping). -/
def strUpper (s : String) : String := String.mk (s.data.map Char.toUpper)

/-- Models Python's `str.startswith`: a prefix test on the character
sequence. -/
def strStartsWith (s pre : String) : Bool := pre.data.isPrefixOf s.data

/-- The fixed list of BigQuery restricted prefixes, in source order. -/
def restricted_prefixes : List String :=
  ["_PARTITION", "_TABLE_", "_FILE_", "_ROW_TIMESTAMP", "__ROOT__", "_COLIDENTIFIER"]

/-- Embeds `BigQuerySchemaGenerator.is_valid_column_name`: returns
`(is_valid, reason_if_invalid)` exactly as the Python method does. -/
def is_valid_column_name (column_name : String) : Bool × String :=
  -- Check if empty
  if column_name.isEmpty then (false, "Empty column name")
  -- Check length (max 300 characters)
  else if column_name.length > 300 then
    (false, "Column name too long (" ++ toString column_name.length ++ " > 300 chars)")
  else
    -- Check for BigQuery specific restricted prefixes (case-insensitive)
    match restricted_prefixes.find? (fun p => strStartsWith (strUpper column_name) p) with
    | some p => (false, "Column name starts with restricted prefix '" ++ p ++ "'")
    | none =>
      -- Check if starts with letter or underscore
      if ¬ (column_name.front.isAlpha || column_name.front == '_') then
        (false, "Column name must start with letter or underscore")
      -- Check if contains only valid characters (letters, numbers, underscores)
      else if ¬ (column_name.data.all fun c => c.isAlphanum || c == '_') then
        (false, "Column name contains invalid characters")
      else (true, "")

/-- The PyArrow logical types the script dispatches on (`pa.types.is_*`).
`integer` carries signedness and bit width, `floating` and `date`/`time`
carry bit widths, mirroring the families each `pa.types` predicate accepts;
`other` stands for any type matched by none of the predicates. -/
inductive ArrowType where
  | timestamp (unit : String) (tz : Option String)
  | time (bits : Nat)
  | date (bits : Nat)
  | integer (signed : Bool) (bits : Nat)
  | floating (bits : Nat)
  | boolean
  | string
  | binary
  | list (value_type : ArrowType)
  | large_list (value_type : ArrowType)
  | struct (fields : List (String × ArrowType))
  | other (name : String)

/-- Embeds `BigQuerySchemaGenerator.get_bigquery_type`. -/
def get_bigquery_type : ArrowType → String
  | .timestamp _ _ => "TIMESTAMP"
  | .time _ => "TIME"
  | .date _ => "DATE"
  | .integer _ _ => "INTEGER"
  | .floating _ => "FLOAT"
  | .boolean => "BOOLEAN"
  | .string => "STRING"
  | .binary => "BYTES"
  | .list value_type => "ARRAY<" ++ get_bigquery_type value_type ++ ">"
  | .large_list value_type => "ARRAY<" ++ get_bigquery_type value_type ++ ">"
  | .struct _ => "RECORD"
  | .other _ => "STRING"

/-- Models Python's `str(arrow_type)` (PyArrow's type rendering), used only
for the diagnostic `type` field of a rejection record. -/
def arrowTypeStr : ArrowType → String
  | .timestamp unit _ => "timestamp[" ++ unit ++ "]"
  | .time bits => "time" ++ toString bits
  | .date bits => "date" ++ toString bits
  | .integer signed bits => (if signed then "int" else "uint") ++ toString bits
  | .floating bits => "float" ++ toString bits
  | .boolean => "bool"
  | .string => "string"
  | .binary => "binary"
  | .list value_type => "list<item: " ++ arrowTypeStr value_type ++ ">"
  | .large_list value_type => "large_list<item: " ++ arrowTypeStr value_type ++ ">"
  | .struct _ => "struct<...>"
  | .other name => name

/-- A top-level column of the Arrow schema read from the parquet file:
`field.name`, `field.type`, `field.nullable`. -/
structure ArrowField where
  name : String
  type : ArrowType
  nullable : Bool

/-- A BigQuery field definition dict `{'name': ..., 'type': ..., 'mode': ...}`
as appended to `bq_schema`. -/
structure FieldDef where
  name : String
  type : String
  mode : String
deriving DecidableEq, Repr

/-- A rejection record dict `{'name': ..., 'reason': ..., 'type': ...}`
as appended to `self.skipped_columns`. -/
structure SkippedColumn where
  name : String
  reason : String
  type : String
deriving DecidableEq, Repr

/-- The generator object's mutable per-call accumulators. -/
structure BigQuerySchemaGenerator where
  skipped_columns : List SkippedColumn
  valid_columns : List String
deriving DecidableEq, Repr

/-- The generator constructed by `BigQuerySchemaGenerator.__init__`. -/
def BigQuerySchemaGenerator.init : BigQuerySchemaGenerator :=
  { skipped_columns := [], valid_columns := [] }

/-- The BigQuery field definition built for a field whose name validated. -/
def toFieldDef (field : ArrowField) : FieldDef :=
  { name := field.name
    type := get_bigquery_type field.type
    mode := if field.nullable then "NULLABLE" else "REQUIRED" }

/-- The rejection record built for a field whose name failed validation. -/
def toSkipped (field : ArrowField) : SkippedColumn :=
  { name := field.name
    reason := (is_valid_column_name field.name).2
    type := arrowTypeStr field.type }

/-- The `for field in arrow_schema` loop of `generate_schema`: yields the
accumulated `(bq_schema, skipped_columns, valid_columns)` lists.  The Python
loop appends to each list; processing head first and consing onto the
result of the rest produces the same three lists. -/
def generate_schema_loop : List ArrowField → List FieldDef × List SkippedColumn × List String
  | [] => ([], [], [])
  | field :: rest =>
    let r := is_valid_column_name field.name
    let t := generate_schema_loop rest
    if r.1 = false then
      (t.1, toSkipped field :: t.2.1, t.2.2)
    else
      (toFieldDef field :: t.1, t.2.1, field.name :: t.2.2)

/-- Embeds `BigQuerySchemaGenerator.generate_schema`.  The parquet read
(`read_parquet_schema`) is external I/O; the Arrow schema it yields is
passed in as a list of fields.  The method first resets the tracking
lists, then runs the per-field loop; it returns the updated generator
state and the `bq_schema` list. -/
def generate_schema (_g : BigQuerySchemaGenerator) (arrow_schema : List ArrowField) :
    BigQuerySchemaGenerator × List FieldDef :=
  -- Reset tracking lists (the incoming state is discarded)
  let t := generate_schema_loop arrow_schema
  ({ skipped_columns := t.2.1, valid_columns := t.2.2 }, t.1)

/-- What `print_summary` reports: the valid-column count, the skipped-column
count, and the full skipped-column details. -/
structure Summary where
  valid_count : Nat
  skipped_count : Nat
  skipped : List SkippedColumn
deriving DecidableEq, Repr

/-- Embeds `BigQuerySchemaGenerator.print_summary` as the data it prints. -/
def print_summary (g : BigQuerySchemaGenerator) : Summary :=
  { valid_count := g.valid_columns.length
    skipped_count := g.skipped_columns.length
    skipped := g.skipped_columns }

/-- Embeds `BigQuerySchemaGenerator.get_column_tuples`. -/
def get_column_tuples (schema : List FieldDef) : List (String × String) :=
  schema.map fun field => (field.name, field.type)

/-- Embeds `BigQuerySchemaGenerator.generate_ddl`. -/
def generate_ddl (schema : List FieldDef) (table_name : String) : String :=
  let ddl_lines := ["CREATE TABLE `" ++ table_name ++ "` ("]
  let field_definitions := schema.map fun field =>
    let fd := "  `" ++ field.name ++ "` " ++ field.type
    if field.mode = "REQUIRED" then fd ++ " NOT NULL" else fd
  let ddl_lines := ddl_lines ++ [String.intercalate ",\n" field_definitions] ++ [");"]
  String.intercalate "\n" ddl_lines

/-- Embeds the module-level `generate_bigquery_schema_from_parquet`.  The
parquet read is external I/O, so the function takes the Arrow schema
directly.  The first component records what `print_summary` surfaced
before the success/failure decision; the second is the outcome: the raised
exception's message (wrapped by the outer handler) or the
`(ddl_statement, column_tuples)` pair. -/
def generate_bigquery_schema_from_parquet (arrow_schema : List ArrowField)
    (table_name : String) : Summary × Except String (String × List (String × String)) :=
  let generator := BigQuerySchemaGenerator.init
  let r := generate_schema generator arrow_schema
  let summary := print_summary r.1
  if r.2.isEmpty then
    (summary, .error "Error generating schema: No valid columns found! All columns were skipped.")
  else
    (summary, .ok (generate_ddl r.2 table_name, get_column_tuples r.2))

/-! ## Specification-side definitions

`name_rules` follows the specification's description of the validator as an
ordered list of five independent rules, each returning the reason of its
violation; `validate_name_spec` applies them in order, the first failing
rule determining the reason.  It is compared with the code-side
`is_valid_column_name` for the refinement claim. -/

/-- The five validation rules of the specification, in the fixed spec order:
non-empty, length bound, restricted prefix, first character, character set. -/
def name_rules : List (String → Option String) :=
  [fun s => if s.isEmpty then some "Empty column name" else none,
   fun s => if s.length > 300 then
      some ("Column name too long (" ++ toString s.length ++ " > 300 chars)") else none,
   fun s => match restricted_prefixes.find? (fun p => strStartsWith (strUpper s) p) with
     | some p => some ("Column name starts with restricted prefix '" ++ p ++ "'")
     | none => none,
   fun s => if ¬ (s.front.isAlpha || s.front == '_') then
      some "Column name must start with letter or underscore" else none,
   fun s => if ¬ (s.data.all fun c => c.isAlphanum || c == '_') then
      some "Column name contains invalid characters" else none]

/-- The validator as the specification words it: the first failing rule's
reason, Valid when every rule passes. -/
def validate_name_spec (s : String) : Bool × String :=
  match name_rules.findSome? (fun rule => rule s) with
  | some reason => (false, reason)
  | none => (true, "")

/-! ## Helper lemmas -/

/-- The translation loop is the validity-filtered input mapped through the
per-field constructions, for each of its three accumulated lists. -/
theorem generate_schema_loop_eq (fields : List ArrowField) :
    generate_schema_loop fields =
      ((fields.filter fun f => (is_valid_column_name f.name).1).map toFieldDef,
       (fields.filter fun f => !(is_valid_column_name f.name).1).map toSkipped,
       (fields.filter fun f => (is_valid_column_name f.name).1).map ArrowField.name) := by
  induction fields with
  | nil => rfl
  | cons f rest ih =>
    simp only [generate_schema_loop, ih]
    cases h : (is_valid_column_name f.name).1 <;>
      simp [h, List.filter_cons, toFieldDef]

/-! ## Claim theorems -/

/-- Claim C1: every source field lands in exactly one of the two output
sequences of `generate_schema` — the accepted `bq_schema` list or the
`skipped_columns` list — so their lengths sum to the input length. -/
theorem claim_c1 (g : BigQuerySchemaGenerator) (fields : List ArrowField) :
    (generate_schema g fields).2.length +
      (generate_schema g fields).1.skipped_columns.length = fields.length := by
  simp only [generate_schema, generate_schema_loop_eq, List.length_map]
  exact (@List.length_eq_length_filter_add ArrowField fields
    (fun f => (is_valid_column_name f.name).1)).symm

/-- Claim C4: `get_bigquery_type` is a pure total function mapping each
source logical type class to its BigQuery type: timestamp to TIMESTAMP,
time to TIME, date to DATE, any integer to INTEGER, any float to FLOAT,
boolean to BOOLEAN, string to STRING, binary to BYTES, lists recursively to
`ARRAY<...>` (including nested arrays and `ARRAY<RECORD>` for struct
elements), struct to the single opaque RECORD, and anything else to STRING;
being a Lean function it never fails. -/
theorem claim_c4 :
    (∀ u tz, get_bigquery_type (.timestamp u tz) = "TIMESTAMP") ∧
    (∀ b, get_bigquery_type (.time b) = "TIME") ∧
    (∀ b, get_bigquery_type (.date b) = "DATE") ∧
    (∀ sg b, get_bigquery_type (.integer sg b) = "INTEGER") ∧
    (∀ b, get_bigquery_type (.floating b) = "FLOAT") ∧
    get_bigquery_type .boolean = "BOOLEAN" ∧
    get_bigquery_type .string = "STRING" ∧
    get_bigquery_type .binary = "BYTES" ∧
    (∀ e, get_bigquery_type (.list e) = "ARRAY<" ++ get_bigquery_type e ++ ">") ∧
    (∀ e, get_bigquery_type (.large_list e) = "ARRAY<" ++ get_bigquery_type e ++ ">") ∧
    (∀ e, get_bigquery_type (.list (.list e)) =
      "ARRAY<ARRAY<" ++ get_bigquery_type e ++ ">>") ∧
    (∀ fs, get_bigquery_type (.list (.struct fs)) = "ARRAY<RECORD>") ∧
    get_bigquery_type (.list .string) = "ARRAY<STRING>" ∧
    (∀ fs, get_bigquery_type (.struct fs) = "RECORD") ∧
    (∀ n, get_bigquery_type (.other n) = "STRING") := by
  refine ⟨fun _ _ => rfl, fun _ => rfl, fun _ => rfl, fun _ _ => rfl, fun _ => rfl,
    rfl, rfl, rfl, fun _ => rfl, fun _ => rfl, fun e => ?_, fun _ => rfl, rfl,
    fun _ => rfl, fun _ => rfl⟩
  simp only [get_bigquery_type, String.append_assoc]
  rw [← String.append_assoc]
  simp

/-- Claim C6: both output sequences of `generate_schema` preserve the source
column order — the accepted list is the source order with the rejected
fields removed, and the rejection records appear in source order, one per
rejected field. -/
theorem claim_c6 (g : BigQuerySchemaGenerator) (fields : List ArrowField) :
    (generate_schema g fields).2 =
      (fields.filter fun f => (is_valid_column_name f.name).1).map toFieldDef ∧
    (generate_schema g fields).1.skipped_columns =
      (fields.filter fun f => !(is_valid_column_name f.name).1).map toSkipped := by
  simp [generate_schema, generate_schema_loop_eq]

/-- Claim C7: every accepted field's mode is derived 1:1 from the source
nullable flag — NULLABLE when nullable, REQUIRED otherwise — and the field
definition built that way is in the accepted output. -/
theorem claim_c7 (g : BigQuerySchemaGenerator) (fields : List ArrowField)
    (f : ArrowField) (hmem : f ∈ fields)
    (hvalid : (is_valid_column_name f.name).1 = true) :
    ({ name := f.name, type := get_bigquery_type f.type,
       mode := if f.nullable then "NULLABLE" else "REQUIRED" } : FieldDef) ∈
      (generate_schema g fields).2 := by
  simp only [generate_schema, generate_schema_loop_eq]
  exact List.mem_map.mpr ⟨f, List.mem_filter.mpr ⟨hmem, hvalid⟩, rfl⟩

/-- Claim C7 witness: the field `("id", int64, nullable = false)` is
translated to `("id", INTEGER, REQUIRED)` in the accepted output. -/
theorem claim_c7_witness :
    (⟨"id", .integer true 64, false⟩ : ArrowField) ∈
      [(⟨"id", .integer true 64, false⟩ : ArrowField)] ∧
    (is_valid_column_name "id").1 = true ∧
    ({ name := "id", type := "INTEGER", mode := "REQUIRED" } : FieldDef) ∈
      (generate_schema .init [⟨"id", .integer true 64, false⟩]).2 :=
  ⟨List.mem_singleton.mpr rfl, by decide,
    claim_c7 .init [⟨"id", .integer true 64, false⟩] ⟨"id", .integer true 64, false⟩
      (List.mem_singleton.mpr rfl) (by decide)⟩

/-- Claim C8: `generate_schema` resets its accumulators on entry, so its
result is independent of any prior generator state (no cross-call leakage),
and a repeated call on the same input — even threading the first call's
final state — yields the identical result. -/
theorem claim_c8 (g g' : BigQuerySchemaGenerator) (fields : List ArrowField) :
    generate_schema g fields = generate_schema g' fields ∧
    generate_schema (generate_schema g fields).1 fields = generate_schema g fields :=
  ⟨rfl, rfl⟩

/-- Claim C2: `is_valid_column_name` is total and coincides with applying
the specification's five rules in their fixed order — non-empty, length at
most 300, no restricted prefix of the upper-cased name, alphabetic or
underscore first character, alphanumeric-or-underscore characters — the
first failing rule determining the reason, a name passing all five being
Valid. -/
theorem claim_c2 :
    name_rules.length = 5 ∧ ∀ s, is_valid_column_name s = validate_name_spec s := by
  refine ⟨rfl, fun s => ?_⟩
  unfold is_valid_column_name validate_name_spec name_rules
  by_cases h1 : s.isEmpty
  · simp [h1, List.findSome?]
  · by_cases h2 : s.length > 300
    · simp [h1, h2, List.findSome?]
    · cases hf : restricted_prefixes.find? (fun p => strStartsWith (strUpper s) p) with
      | some p => simp [h1, h2, hf, List.findSome?]
      | none =>
        by_cases h4 : (s.front.isAlpha || s.front == '_') = true
        · by_cases h5 : (s.data.all fun c => c.isAlphanum || c == '_') = true
          · simp [h1, h2, hf, h4, h5, List.findSome?]
          · simp [h1, h2, hf, h4, h5, List.findSome?]
        · simp [h1, h2, hf, h4, List.findSome?]

set_option maxRecDepth 4000

/-- A 310-character name carrying the restricted prefix `_PARTITION`. -/
def longPrefixedName : String := "_PARTITION" ++ String.mk (List.replicate 300 'a')

/-- Claim C3 counterexample: `longPrefixedName` upper-cases to a string
starting with the restricted prefix `_PARTITION`, yet the validator's
reason is the length message, not one naming that prefix, because the
length rule runs before the prefix rule. -/
theorem claim_c3_counterexample :
    strStartsWith (strUpper longPrefixedName) "_PARTITION" = true ∧
    is_valid_column_name longPrefixedName =
      (false, "Column name too long (310 > 300 chars)") ∧
    (is_valid_column_name longPrefixedName).2 ≠
      "Column name starts with restricted prefix '_PARTITION'" := by
  refine ⟨by decide, by decide, by decide⟩

/-- Claim C3 amended: for every string of length at most 300 whose
upper-cased form starts with one of the six restricted prefixes,
`is_valid_column_name` returns Invalid with a reason naming that prefix,
regardless of the rest of the string. -/
theorem claim_c3_amended (s : String) (hlen : s.length ≤ 300)
    (hpre : ∃ p ∈ restricted_prefixes, strStartsWith (strUpper s) p) :
    (is_valid_column_name s).1 = false ∧
    ∃ p ∈ restricted_prefixes, strStartsWith (strUpper s) p ∧
      (is_valid_column_name s).2 =
        "Column name starts with restricted prefix '" ++ p ++ "'" := by
  have hne : ¬ s.isEmpty = true := by
    intro h
    rw [(String.isEmpty_iff s).mp h] at hpre
    obtain ⟨p, hp, hsp⟩ := hpre
    fin_cases hp <;> exact absurd hsp (by decide)
  obtain ⟨p0, hp0, hs0⟩ := hpre
  have hfind : (restricted_prefixes.find? (fun p => strStartsWith (strUpper s) p)).isSome :=
    List.find?_isSome.mpr ⟨p0, hp0, hs0⟩
  obtain ⟨q, hq⟩ := Option.isSome_iff_exists.mp hfind
  have h2 : ¬ (s.length > 300) := Nat.not_lt.mpr hlen
  unfold is_valid_column_name
  rw [if_neg hne, if_neg h2, hq]
  exact ⟨rfl, q, List.mem_of_find?_eq_some hq, List.find?_some hq, rfl⟩

/-- Claim C3 amended witness: the spec scenario `"_partition_date"` is
rejected with the reason naming `_PARTITION`. -/
theorem claim_c3_amended_witness :
    ("_partition_date".length ≤ 300 ∧
      ∃ p ∈ restricted_prefixes, strStartsWith (strUpper "_partition_date") p) ∧
    ((is_valid_column_name "_partition_date").1 = false ∧
      ∃ p ∈ restricted_prefixes, strStartsWith (strUpper "_partition_date") p ∧
        (is_valid_column_name "_partition_date").2 =
          "Column name starts with restricted prefix '" ++ p ++ "'") :=
  ⟨⟨by decide, by decide⟩, claim_c3_amended "_partition_date" (by decide) (by decide)⟩

/-- The `generate_bigquery_schema_from_parquet` body with its local
bindings expanded, for use in the error-handling proofs. -/
theorem gen_from_parquet_eq (fields : List ArrowField) (tn : String) :
    generate_bigquery_schema_from_parquet fields tn =
      if (generate_schema BigQuerySchemaGenerator.init fields).2.isEmpty then
        (print_summary (generate_schema BigQuerySchemaGenerator.init fields).1,
         Except.error "Error generating schema: No valid columns found! All columns were skipped.")
      else
        (print_summary (generate_schema BigQuerySchemaGenerator.init fields).1,
         Except.ok (generate_ddl (generate_schema BigQuerySchemaGenerator.init fields).2 tn,
           get_column_tuples (generate_schema BigQuerySchemaGenerator.init fields).2)) := by
  simp only [generate_bigquery_schema_from_parquet]

/-- Claim C5: the operation fails exactly when the accepted sequence is
empty after processing all fields; the failure is the no-valid-columns
error, the surfaced summary carries the rejection count and the full
rejection list, and no partial result is returned (the outcome is either
the error or the full pair, never both). -/
theorem claim_c5 (fields : List ArrowField) (tn : String) :
    ((∃ e, (generate_bigquery_schema_from_parquet fields tn).2 = Except.error e) ↔
      (generate_schema BigQuerySchemaGenerator.init fields).2 = []) ∧
    ((generate_schema BigQuerySchemaGenerator.init fields).2 = [] →
      (generate_bigquery_schema_from_parquet fields tn).2 =
        Except.error "Error generating schema: No valid columns found! All columns were skipped.") ∧
    (generate_bigquery_schema_from_parquet fields tn).1.skipped_count =
      (generate_schema BigQuerySchemaGenerator.init fields).1.skipped_columns.length ∧
    (generate_bigquery_schema_from_parquet fields tn).1.skipped =
      (generate_schema BigQuerySchemaGenerator.init fields).1.skipped_columns := by
  rw [gen_from_parquet_eq]
  by_cases h : (generate_schema BigQuerySchemaGenerator.init fields).2.isEmpty = true
  · rw [if_pos h]
    exact ⟨⟨fun _ => List.isEmpty_iff.mp h, fun _ => ⟨_, rfl⟩⟩, fun _ => rfl, rfl, rfl⟩
  · rw [if_neg h]
    have hne : (generate_schema BigQuerySchemaGenerator.init fields).2 ≠ [] := by
      simpa [List.isEmpty_iff] using h
    refine ⟨⟨?_, fun hnil => absurd hnil hne⟩, fun hnil => absurd hnil hne, rfl, rfl⟩
    rintro ⟨e, he⟩
    simp at he

/-- Claim C5 witness: a schema whose single column carries the restricted
prefix `_TABLE_` is fully rejected, so the accepted sequence is empty and
the operation fails with the no-valid-columns error. -/
theorem claim_c5_witness :
    (generate_schema BigQuerySchemaGenerator.init
      [⟨"_table_x", ArrowType.string, true⟩]).2 = [] ∧
    (generate_bigquery_schema_from_parquet
        [⟨"_table_x", ArrowType.string, true⟩] "t").2 =
      Except.error "Error generating schema: No valid columns found! All columns were skipped." :=
  ⟨by decide,
    (claim_c5 [⟨"_table_x", ArrowType.string, true⟩] "t").2.1 (by decide)⟩

/-- Claim C10: the empty source schema fails with the same no-valid-columns
error even though nothing was rejected — the failure condition is an empty
accepted sequence, not the presence of rejections — so the empty input and
an all-rejected input fail identically. -/
theorem claim_c10 :
    (generate_bigquery_schema_from_parquet [] "your_table").2 =
      Except.error "Error generating schema: No valid columns found! All columns were skipped." ∧
    (generate_bigquery_schema_from_parquet [] "your_table").1 =
      { valid_count := 0, skipped_count := 0, skipped := [] } ∧
    (generate_bigquery_schema_from_parquet [] "your_table").2 =
      (generate_bigquery_schema_from_parquet
        [⟨"", ArrowType.integer true 64, true⟩] "your_table").2 :=
  ⟨rfl, rfl, rfl⟩

/-- The DDL line the specification describes for one accepted field:
``  `<name>` <TYPE>`` with a ` NOT NULL` suffix exactly when the mode is
REQUIRED. -/
def bq_field_line (field : FieldDef) : String :=
  "  `" ++ field.name ++ "` " ++ field.type ++
    (if field.mode = "REQUIRED" then " NOT NULL" else "")

/-- The code's per-field DDL rendering agrees with `bq_field_line`. -/
theorem ddl_line_eq (field : FieldDef) :
    (if field.mode = "REQUIRED" then
       "  `" ++ field.name ++ "` " ++ field.type ++ " NOT NULL"
     else "  `" ++ field.name ++ "` " ++ field.type) = bq_field_line field := by
  unfold bq_field_line
  by_cases h : field.mode = "REQUIRED" <;> simp [h]

/-- `String.intercalate` on a three-element list. -/
theorem intercalate_three (a b c : String) :
    String.intercalate "\n" [a, b, c] = a ++ "\n" ++ b ++ "\n" ++ c := rfl

/-- Claim C9: for a non-empty accepted sequence, `generate_ddl` produces
exactly the `CREATE TABLE` header, the comma-separated field lines in
accepted order (` NOT NULL` iff REQUIRED), and the `);` terminator; and
`get_column_tuples` is the order-preserving (name, type) projection of the
same sequence with mode dropped. -/
theorem claim_c9 (schema : List FieldDef) (table_name : String) (_h : schema ≠ []) :
    generate_ddl schema table_name =
      "CREATE TABLE `" ++ table_name ++ "` (" ++ "\n" ++
        String.intercalate ",\n" (schema.map bq_field_line) ++ "\n" ++ ");" ∧
    get_column_tuples schema = schema.map fun field => (field.name, field.type) := by
  refine ⟨?_, rfl⟩
  simp only [generate_ddl, List.cons_append, List.nil_append]
  simp only [ddl_line_eq]
  exact intercalate_three _ _ _

/-- Claim C9 witness: the accepted sequence `[("id", INTEGER, REQUIRED)]`
yields the DDL of the spec scenario and the pair list `[("id", "INTEGER")]`. -/
theorem claim_c9_witness :
    ([({ name := "id", type := "INTEGER", mode := "REQUIRED" } : FieldDef)] ≠ []) ∧
    (generate_ddl [({ name := "id", type := "INTEGER", mode := "REQUIRED" } : FieldDef)]
        "your_table" =
      "CREATE TABLE `" ++ "your_table" ++ "` (" ++ "\n" ++
        String.intercalate ",\n"
          ([({ name := "id", type := "INTEGER", mode := "REQUIRED" } : FieldDef)].map
            bq_field_line) ++ "\n" ++ ");" ∧
      get_column_tuples [({ name := "id", type := "INTEGER", mode := "REQUIRED" } : FieldDef)] =
        [({ name := "id", type := "INTEGER", mode := "REQUIRED" } : FieldDef)].map
          fun field => (field.name, field.type)) ∧
    generate_ddl [({ name := "id", type := "INTEGER", mode := "REQUIRED" } : FieldDef)]
        "your_table" =
      "CREATE TABLE `your_table` (\n  `id` INTEGER NOT NULL\n);" :=
  ⟨by decide, claim_c9 _ "your_table" (by decide), rfl⟩
